import Mathlib

/-!
Shallow embedding of the routing / decomposition / execution pipeline of the
mcp_multi_agent repository.

Source files embedded:
 - src/core/agent_router.py        (get_available_roo_modes, AgentRouter.route_task)
 - src/core/task_decomposition.py  (TaskDecomposition.decompose_request)
 - src/core/orchestration_engine.py (OrchestrationEngine.execute_plan)
 - src/config/settings.py          (MCPSettings.RECOMMENDED_LLMS_BY_TASK_TYPE)

Python values flowing through the pipeline are JSON-like: tasks are dicts with
string keys, whose values are JSON values.  External boundaries (the LangChain
agent executor, the LLM chain) are modelled as explicit behaviour parameters:
the embedding quantifies over every reply or raised error the boundary can
produce, which is exactly how the source branches on them.
-/

/-- A JSON-like Python value: the values that appear in task dictionaries and
in parsed LLM replies (`json.loads` output). -/
inductive JValue where
  | jNull : JValue
  | jBool : Bool → JValue
  | jNum : Int → JValue
  | jStr : String → JValue
  | jArr : List JValue → JValue
  | jObj : List (String × JValue) → JValue

/-- A Python dict with string keys, as used for tasks and requests. -/
abbrev PyDict := List (String × JValue)

/-- `d.get(k)` on a Python dict: `none` models Python `None` (key absent). -/
def dictGet (d : PyDict) (k : String) : Option JValue :=
  List.lookup k d

/-- Whether a Python value is hashable (usable as a dict key).  Lists and
dicts are unhashable; `None`, booleans, numbers and strings are hashable. -/
def pyHashable : JValue → Bool
  | JValue.jArr _ => false
  | JValue.jObj _ => false
  | _ => true

/-- Python truthiness of a JSON-like value. -/
def pyTruthy : JValue → Bool
  | JValue.jNull => false
  | JValue.jBool b => b
  | JValue.jNum n => n != 0
  | JValue.jStr s => s != ""
  | JValue.jArr xs => !xs.isEmpty
  | JValue.jObj fs => !fs.isEmpty

/-- An exception escaping a routine to its caller. -/
inductive PyExn where
  | unboundLocalError : PyExn

/-- One Roo Mode entry of the static catalog (agent_router.py, lines 15-41). -/
structure Capability where
  slug : String
  name : String
  role_definition : String

/-- The static mode catalog returned by `get_available_roo_modes`
(agent_router.py, lines 10-41; apostrophes of the original prose elided). -/
def get_available_roo_modes : List Capability :=
  [ { slug := "code", name := "💻 Code",
      role_definition := "The standard Code mode for generating, debugging, and refactoring code. Use this for any code-related tasks." },
    { slug := "architect", name := "🏗️ Architect",
      role_definition := "The Architect mode for design and planning tasks. Use this for high-level system design, architecture, and planning." },
    { slug := "debug", name := "🪲 Debug",
      role_definition := "The Debug mode for troubleshooting issues, investigating errors, or diagnosing problems. Use this for bug fixing and error analysis." },
    { slug := "ask", name := "❓ Ask",
      role_definition := "The Ask mode for getting explanations, documentation, or answers to technical questions. Use this when you need information or clarification." },
    { slug := "orchestrator", name := "🪃 Orchestrator",
      role_definition := "The Orchestrator mode for complex, multi-step projects that require coordination across different specialties. Use this for breaking down large tasks and managing workflows." } ]

/-- The candidate slug list `[mode["slug"] for mode in get_available_roo_modes()]`
(agent_router.py, line 93). -/
def rooModeSlugs : List String :=
  get_available_roo_modes.map Capability.slug

/-- `MCPSettings.RECOMMENDED_LLMS_BY_TASK_TYPE` (settings.py, lines 37-45). -/
def RECOMMENDED_LLMS_BY_TASK_TYPE : List (String × String) :=
  [ ("code.generate", "Gemini"),
    ("code.refactor", "Gemini"),
    ("debug.issue", "Claude"),
    ("design.architecture", "Claude"),
    ("get.documentation", "ChatGPT/GPT-4"),
    ("file.create", "Others"),
    ("default", "Gemini") ]

/-- `RECOMMENDED_LLMS_BY_TASK_TYPE["default"]` (settings.py line 44: the key is
present, so the indexing never raises; the `getD` default is dead). -/
def tableDefaultEntry : String :=
  (List.lookup "default" RECOMMENDED_LLMS_BY_TASK_TYPE).getD ""

/-- `RECOMMENDED_LLMS_BY_TASK_TYPE.get(k, RECOMMENDED_LLMS_BY_TASK_TYPE["default"])`
for a string key (agent_router.py, line 85). -/
def tableGet (k : String) : String :=
  (List.lookup k RECOMMENDED_LLMS_BY_TASK_TYPE).getD tableDefaultEntry

/-- The dict returned by `route_task`:
`{"mode_slug": ..., "recommended_llm": ...}` (agent_router.py, lines 94-100). -/
structure RoutingDecision where
  mode_slug : String
  recommended_llm : String

/-- Behaviour of the routing oracle boundary, i.e. the single call
`self.agent_executor.invoke(...)` followed by `result.get("output")`
(agent_router.py, lines 89-91): either the call raises, or it returns a result
dict whose `"output"` entry is the given optional value (`none` models a
missing key, read back as Python `None`). -/
inductive RouteOracle where
  | raises : RouteOracle
  | returns : Option JValue → RouteOracle

/-- `AgentRouter.route_task` (agent_router.py, lines 71-100).

Line map:
 - line 84: `task_type = task.get('task_type', 'default')`.
 - line 85: `recommended_llm = RECOMMENDED_LLMS_BY_TASK_TYPE.get(task_type, ...)`.
   `dict.get` hashes its key, so an unhashable `task_type` (a list or dict
   value) raises `TypeError` here.  That exception is caught by the handler at
   line 98, whose body (line 100) then reads the local `recommended_llm`,
   which was never assigned: the handler itself raises `UnboundLocalError`,
   which escapes `route_task`.  This is the `.error` branch below.
 - line 87: `json.dumps(task.get('params', {}))` — every JSON-like value
   serializes, so this never raises and is not represented.
 - lines 89-91: the oracle boundary, `oracle` below.
 - line 93: `if selected_mode_slug and selected_mode_slug in [slugs]` —
   truthiness plus catalog membership; membership of a non-string value in a
   list of strings is `False` without raising.
 - lines 94-100: return the selected slug, or the `"orchestrator"` fallback
   (also on an oracle error, via the same handler, where `recommended_llm`
   is bound because line 85 already ran).

The routine is split below into `taskTypeOf` (line 84) and `route_task_core`
(lines 85-100, a function of the extracted `task_type` and the oracle
behaviour), composed by `route_task`. -/
def taskTypeOf (task : PyDict) : JValue :=
  (dictGet task "task_type").getD (JValue.jStr "default")

/-- The value of `recommended_llm` assigned at line 85 when `task_type` is
hashable: the table entry for a string key, the table entry for `"default"`
for any other (hashable) key, which cannot be a key of the string-keyed
table. -/
def recommendedLLMOf : JValue → String
  | JValue.jStr s => tableGet s
  | _ => tableDefaultEntry

/-- The part of `route_task` that depends on the task only through its
extracted `task_type` value (everything from line 85 on; the task params
serialized at line 87 only feed the oracle prompt). -/
def route_task_core (task_type : JValue) (oracle : RouteOracle) : Except PyExn RoutingDecision :=
  if pyHashable task_type then
    match oracle with
    | RouteOracle.raises =>
        Except.ok { mode_slug := "orchestrator", recommended_llm := recommendedLLMOf task_type }
    | RouteOracle.returns output =>
        match output with
        | some (JValue.jStr s) =>
            if pyTruthy (JValue.jStr s) && rooModeSlugs.contains s then
              Except.ok { mode_slug := s, recommended_llm := recommendedLLMOf task_type }
            else
              Except.ok { mode_slug := "orchestrator",
                          recommended_llm := recommendedLLMOf task_type }
        | _ =>
            Except.ok { mode_slug := "orchestrator",
                        recommended_llm := recommendedLLMOf task_type }
  else
    Except.error PyExn.unboundLocalError

def route_task (task : PyDict) (oracle : RouteOracle) : Except PyExn RoutingDecision :=
  route_task_core (taskTypeOf task) oracle

/-- The validity test the router applies to the oracle reply
(agent_router.py, line 93), as a predicate on the whole boundary behaviour:
`true` exactly when the call returned and its output is a truthy string that
is a member of the candidate slug list. -/
def oracleSelectsValidSlug : RouteOracle → Bool
  | RouteOracle.raises => false
  | RouteOracle.returns none => false
  | RouteOracle.returns (some (JValue.jStr s)) =>
      pyTruthy (JValue.jStr s) && rooModeSlugs.contains s
  | RouteOracle.returns (some _) => false

example : route_task [("task_type", JValue.jStr "debug.issue")] RouteOracle.raises
    = Except.ok { mode_slug := "orchestrator", recommended_llm := "Claude" } := rfl

example : route_task [] (RouteOracle.returns (some (JValue.jStr "code")))
    = Except.ok { mode_slug := "code", recommended_llm := "Gemini" } := rfl

example : route_task [("task_type", JValue.jArr [])] RouteOracle.raises
    = Except.error PyExn.unboundLocalError := rfl

/-- Behaviour of the decomposition boundary as `decompose_request` observes it
(task_decomposition.py, lines 49-62).  The `try` body serializes the inputs,
calls `self.llm_chain.run(...)` and applies `json.loads` to the reply string:
 - `otherExn msg`: some step raised an exception that is not a
   `json.JSONDecodeError` (the chain call failed, serialization failed, ...);
   `msg` is Python `str(e)`.  Handled by the generic handler at line 60.
 - `jsonDecodeError`: the reply string is not valid JSON, `json.loads` raised
   `json.JSONDecodeError`.  Handled by the first handler at line 56.
 - `parsed v`: `json.loads(reply)` succeeded and produced the JSON value `v`
   (any JSON value: object, number, list, ...). -/
inductive DecompOutcome where
  | otherExn : String → DecompOutcome
  | jsonDecodeError : DecompOutcome
  | parsed : JValue → DecompOutcome

/-- The synthetic one-task error plan built by the two exception handlers
(task_decomposition.py, lines 59 and 62). -/
def errorTaskList (msg : String) : JValue :=
  JValue.jArr
    [JValue.jObj
      [ ("task_type", JValue.jStr "error"),
        ("params", JValue.jObj [("message", JValue.jStr msg)]) ]]

/-- `TaskDecomposition.decompose_request` (task_decomposition.py, lines 38-62).
On a successful parse the parsed value is returned as-is (line 55:
`return json.loads(response)`) — with no check that it is a list, nor that its
elements contain `task_type`.  Both exception handlers return a synthetic
single error task; every exception in the `try` body lands in one of them, so
the routine itself never raises, hence the plain (non-`Except`) result type. -/
def decompose_request : DecompOutcome → JValue
  | DecompOutcome.parsed v => v
  | DecompOutcome.jsonDecodeError =>
      errorTaskList "Failed to decompose request: Invalid JSON from LLM"
  | DecompOutcome.otherExn msg =>
      errorTaskList ("Failed to decompose request: " ++ msg)

/-- The boundary behaviours the failure policy of the spec is about: the
oracle call raised, or its reply was not valid JSON. -/
def decompFailed : DecompOutcome → Bool
  | DecompOutcome.parsed _ => false
  | _ => true

/-- Spec-side predicate (section 4.4 of the design): a JSON value that is a
task object, i.e. an object minimally containing a `task_type` field.  Used
only to state what the spec claims about decomposition output. -/
def isTaskObj : JValue → Bool
  | JValue.jObj fs => (List.lookup "task_type" fs).isSome
  | _ => false

/-- Spec-side predicate: the expected structure of a decomposition reply, a
JSON list each of whose elements is a task object. -/
def isTaskList : JValue → Bool
  | JValue.jArr xs => xs.all isTaskObj
  | _ => false

/-- Spec-side predicate: an object of the shape
`{task_type: "error", params: {message: <string>}}`. -/
def isErrorTaskObj : JValue → Bool
  | JValue.jObj fs =>
      (match List.lookup "task_type" fs with
       | some (JValue.jStr s) => s == "error"
       | _ => false)
      &&
      (match List.lookup "params" fs with
       | some (JValue.jObj ps) =>
           (match List.lookup "message" ps with
            | some (JValue.jStr _) => true
            | _ => false)
       | _ => false)
  | _ => false

/-- Spec-side predicate: a single-element list containing one synthetic error
task, the return shape the failure policy of section 4.4 promises. -/
def isSingletonErrorTask : JValue → Bool
  | JValue.jArr [t] => isErrorTaskObj t
  | _ => false

example : isSingletonErrorTask (decompose_request DecompOutcome.jsonDecodeError) = true := rfl
example : decompose_request (DecompOutcome.parsed (JValue.jObj [])) = JValue.jObj [] := rfl

/-- One entry of `final_results["results"]` (orchestration_engine.py,
lines 119-123 and 136-140): completed results carry an `output` and no
`error` key, failed results carry an `error` and no `output` key. -/
structure TaskResult where
  task : PyDict
  status : String
  output : Option String
  error : Option String

/-- The aggregated `final_results` dict (orchestration_engine.py, line 107). -/
structure PlanResult where
  status : String
  results : List TaskResult

/-- Behaviour of the delegation boundary for one task: the single call
`self.agent_executor.invoke({"input": ...})` (orchestration_engine.py,
line 115) either raises (with message `str(e)`) or returns a result dict whose
`"output"` entry is the given optional string (`none` models a missing key).
The input string is built deterministically from the task
(`json.dumps(task)`, line 110, which never raises on a JSON-like dict), so the
boundary is modelled as a function of the task itself. -/
abbrev Delegation := PyDict → Except String (Option String)

/-- The loop body of `OrchestrationEngine.execute_plan`
(orchestration_engine.py, lines 108-144), with the accumulated
`final_results` passed explicitly.  The second component of the result is the
trace of tasks for which the delegation boundary was actually invoked.

Line map, per task:
 - line 115: invoke the boundary (`d task`).
 - success (lines 119-125): append
   `{"task": task, "status": "completed", "output": result.get("output", ...)}`
   and continue with the next task.  The subsequent
   `self.memory.save_context(...)` call (lines 129-132) appends two strings to
   the in-memory conversation buffer; it is not read by `execute_plan` and
   does not raise on string inputs, so the buffer is not represented here.
 - failure (lines 134-144): append
   `{"task": task, "status": "failed", "error": str(e)}`, set
   `final_results["status"] = "partial_success_with_errors"`, and `break`. -/
def execLoop (d : Delegation) : List PyDict → PlanResult → PlanResult × List PyDict
  | [], acc => (acc, [])
  | task :: rest, acc =>
      match d task with
      | Except.ok out =>
          let tr : TaskResult :=
            { task := task, status := "completed",
              output := some (out.getD "No specific output from simulated mode."),
              error := none }
          let next := execLoop d rest { acc with results := acc.results ++ [tr] }
          (next.1, task :: next.2)
      | Except.error e =>
          let tr : TaskResult :=
            { task := task, status := "failed", output := none, error := some e }
          ({ status := "partial_success_with_errors",
             results := acc.results ++ [tr] }, [task])

/-- `OrchestrationEngine.execute_plan` (orchestration_engine.py,
lines 97-146): run the loop from the initial
`{"status": "success", "results": []}` and return the final dict. -/
def execute_plan (d : Delegation) (tasks : List PyDict) : PlanResult :=
  (execLoop d tasks { status := "success", results := [] }).1

/-- The tasks for which `execute_plan` actually invoked the delegation
boundary, in invocation order. -/
def delegatedTasks (d : Delegation) (tasks : List PyDict) : List PyDict :=
  (execLoop d tasks { status := "success", results := [] }).2


lemma route_task_ok_of_string (task : PyDict) (oracle : RouteOracle) (s : String)
    (h : taskTypeOf task = JValue.jStr s) :
    ∃ d : RoutingDecision,
      route_task task oracle = Except.ok d ∧ d.recommended_llm = tableGet s := by
  have hc : route_task task oracle = route_task_core (JValue.jStr s) oracle := by
    unfold route_task
    rw [h]
  cases oracle with
  | raises => exact ⟨⟨"orchestrator", tableGet s⟩, by rw [hc]; rfl, rfl⟩
  | returns output =>
    cases output with
    | none => exact ⟨⟨"orchestrator", tableGet s⟩, by rw [hc]; rfl, rfl⟩
    | some v =>
      cases v with
      | jNull => exact ⟨⟨"orchestrator", tableGet s⟩, by rw [hc]; rfl, rfl⟩
      | jBool b => exact ⟨⟨"orchestrator", tableGet s⟩, by rw [hc]; rfl, rfl⟩
      | jNum n => exact ⟨⟨"orchestrator", tableGet s⟩, by rw [hc]; rfl, rfl⟩
      | jArr xs => exact ⟨⟨"orchestrator", tableGet s⟩, by rw [hc]; rfl, rfl⟩
      | jObj fs => exact ⟨⟨"orchestrator", tableGet s⟩, by rw [hc]; rfl, rfl⟩
      | jStr t =>
        cases hv : pyTruthy (JValue.jStr t) && rooModeSlugs.contains t with
        | true =>
          refine ⟨⟨t, tableGet s⟩, ?_, rfl⟩
          rw [hc]
          show (if pyTruthy (JValue.jStr t) && rooModeSlugs.contains t then
                  Except.ok (⟨t, tableGet s⟩ : RoutingDecision)
                else Except.ok ⟨"orchestrator", tableGet s⟩)
              = Except.ok (⟨t, tableGet s⟩ : RoutingDecision)
          rw [hv]
          rfl
        | false =>
          refine ⟨⟨"orchestrator", tableGet s⟩, ?_, rfl⟩
          rw [hc]
          show (if pyTruthy (JValue.jStr t) && rooModeSlugs.contains t then
                  Except.ok (⟨t, tableGet s⟩ : RoutingDecision)
                else Except.ok ⟨"orchestrator", tableGet s⟩)
              = Except.ok (⟨"orchestrator", tableGet s⟩ : RoutingDecision)
          rw [hv]
          rfl

lemma route_task_core_slug (tt : JValue) (oracle : RouteOracle) (d : RoutingDecision)
    (hh : pyHashable tt = true)
    (h : route_task_core tt oracle = Except.ok d) :
    rooModeSlugs.contains d.mode_slug = true ∧
    rooModeSlugs.contains "orchestrator" = true ∧
    (oracleSelectsValidSlug oracle = false → d.mode_slug = "orchestrator") := by
  unfold route_task_core at h
  rw [hh] at h
  cases oracle with
  | raises =>
    have h2 : Except.ok (⟨"orchestrator", recommendedLLMOf tt⟩ : RoutingDecision)
        = Except.ok d := h
    injection h2 with h3
    subst h3
    exact ⟨rfl, rfl, fun _ => rfl⟩
  | returns output =>
    cases output with
    | none =>
      have h2 : Except.ok (⟨"orchestrator", recommendedLLMOf tt⟩ : RoutingDecision)
          = Except.ok d := h
      injection h2 with h3
      subst h3
      exact ⟨rfl, rfl, fun _ => rfl⟩
    | some v =>
      cases v with
      | jStr t =>
        have h2 : (if pyTruthy (JValue.jStr t) && rooModeSlugs.contains t then
                     Except.ok (⟨t, recommendedLLMOf tt⟩ : RoutingDecision)
                   else Except.ok ⟨"orchestrator", recommendedLLMOf tt⟩)
            = Except.ok d := h
        cases hv : pyTruthy (JValue.jStr t) && rooModeSlugs.contains t with
        | true =>
          rw [hv] at h2
          have h3 : Except.ok (⟨t, recommendedLLMOf tt⟩ : RoutingDecision)
              = Except.ok d := h2
          injection h3 with h4
          subst h4
          refine ⟨((Bool.and_eq_true _ _).mp hv).2, rfl, ?_⟩
          intro hf
          have hf2 : (pyTruthy (JValue.jStr t) && rooModeSlugs.contains t) = false := hf
          rw [hv] at hf2
          exact Bool.noConfusion hf2
        | false =>
          rw [hv] at h2
          have h3 : Except.ok (⟨"orchestrator", recommendedLLMOf tt⟩ : RoutingDecision)
              = Except.ok d := h2
          injection h3 with h4
          subst h4
          exact ⟨rfl, rfl, fun _ => rfl⟩
      | jNull =>
        have h2 : Except.ok (⟨"orchestrator", recommendedLLMOf tt⟩ : RoutingDecision)
            = Except.ok d := h
        injection h2 with h3
        subst h3
        exact ⟨rfl, rfl, fun _ => rfl⟩
      | jBool b =>
        have h2 : Except.ok (⟨"orchestrator", recommendedLLMOf tt⟩ : RoutingDecision)
            = Except.ok d := h
        injection h2 with h3
        subst h3
        exact ⟨rfl, rfl, fun _ => rfl⟩
      | jNum n =>
        have h2 : Except.ok (⟨"orchestrator", recommendedLLMOf tt⟩ : RoutingDecision)
            = Except.ok d := h
        injection h2 with h3
        subst h3
        exact ⟨rfl, rfl, fun _ => rfl⟩
      | jArr xs =>
        have h2 : Except.ok (⟨"orchestrator", recommendedLLMOf tt⟩ : RoutingDecision)
            = Except.ok d := h
        injection h2 with h3
        subst h3
        exact ⟨rfl, rfl, fun _ => rfl⟩
      | jObj fs =>
        have h2 : Except.ok (⟨"orchestrator", recommendedLLMOf tt⟩ : RoutingDecision)
            = Except.ok d := h
        injection h2 with h3
        subst h3
        exact ⟨rfl, rfl, fun _ => rfl⟩

/-- C1: the claim states `route_task` returns a decision and never raises
outward for every input dictionary, every internal error degrading to the
fallback decision.  The code violates it: for a task whose `task_type` value
is unhashable (here the empty list), line 85 raises `TypeError` inside the
`try` block before `recommended_llm` is assigned, and the handler at lines
98-100 then reads the unbound local `recommended_llm`: the handler itself
raises `UnboundLocalError`, which propagates to the caller — whatever the
oracle would have done. -/
theorem route_task_unbound_local_on_unhashable_task_type :
    ∀ oracle : RouteOracle,
      route_task [("task_type", JValue.jArr [])] oracle
        = Except.error PyExn.unboundLocalError := by
  intro oracle
  rfl

/-- C4: for every task whose `task_type` reads as a string `s` (line 84 turns
a missing key into the string `default`, itself a table key), `route_task`
returns a decision whose `recommended_llm` equals the preference-table entry
for `s` when `s` is a key of the table, and the entry for `default`
otherwise. -/
theorem route_task_recommended_llm_table_lookup
    (task : PyDict) (oracle : RouteOracle) (s : String)
    (h : taskTypeOf task = JValue.jStr s) :
    ∃ d : RoutingDecision,
      route_task task oracle = Except.ok d ∧
      (∀ v, List.lookup s RECOMMENDED_LLMS_BY_TASK_TYPE = some v →
        d.recommended_llm = v) ∧
      (List.lookup s RECOMMENDED_LLMS_BY_TASK_TYPE = none →
        List.lookup "default" RECOMMENDED_LLMS_BY_TASK_TYPE = some d.recommended_llm) := by
  obtain ⟨d, hd, hllm⟩ := route_task_ok_of_string task oracle s h
  refine ⟨d, hd, ?_, ?_⟩
  · intro v hv
    rw [hllm, tableGet, hv]
    rfl
  · intro hv
    rw [hllm, tableGet, hv]
    rfl

/-- C4 witness: a concrete task with `task_type = "debug.issue"`, a table key
mapped to `Claude`; the oracle raises. -/
theorem route_task_recommended_llm_table_lookup_witness :
    ∃ d : RoutingDecision,
      route_task [("task_type", JValue.jStr "debug.issue")] RouteOracle.raises
        = Except.ok d ∧
      (∀ v, List.lookup "debug.issue" RECOMMENDED_LLMS_BY_TASK_TYPE = some v →
        d.recommended_llm = v) ∧
      (List.lookup "debug.issue" RECOMMENDED_LLMS_BY_TASK_TYPE = none →
        List.lookup "default" RECOMMENDED_LLMS_BY_TASK_TYPE = some d.recommended_llm) :=
  route_task_recommended_llm_table_lookup
    [("task_type", JValue.jStr "debug.issue")] RouteOracle.raises "debug.issue" rfl

/-- C5: every decision `route_task` actually returns carries a `mode_slug`
belonging to the catalog slug list; the fallback slug `orchestrator` is
itself a catalog member; and whenever the oracle reply is not a truthy
catalog slug (raised error, missing output, empty string, garbage text, or a
non-string value), the returned slug is exactly the fallback
`orchestrator`. -/
theorem route_task_slug_in_catalog
    (task : PyDict) (oracle : RouteOracle) (d : RoutingDecision)
    (h : route_task task oracle = Except.ok d) :
    rooModeSlugs.contains d.mode_slug = true ∧
    rooModeSlugs.contains "orchestrator" = true ∧
    (oracleSelectsValidSlug oracle = false → d.mode_slug = "orchestrator") := by
  unfold route_task at h
  cases htt : taskTypeOf task with
  | jArr xs =>
    rw [htt] at h
    have h2 : (Except.error PyExn.unboundLocalError : Except PyExn RoutingDecision)
        = Except.ok d := h
    exact Except.noConfusion h2
  | jObj fs =>
    rw [htt] at h
    have h2 : (Except.error PyExn.unboundLocalError : Except PyExn RoutingDecision)
        = Except.ok d := h
    exact Except.noConfusion h2
  | jNull => rw [htt] at h; exact route_task_core_slug JValue.jNull oracle d rfl h
  | jBool b => rw [htt] at h; exact route_task_core_slug (JValue.jBool b) oracle d rfl h
  | jNum n => rw [htt] at h; exact route_task_core_slug (JValue.jNum n) oracle d rfl h
  | jStr u => rw [htt] at h; exact route_task_core_slug (JValue.jStr u) oracle d rfl h

/-- C5 witness: the empty task dict with a garbage oracle reply degrades to
the `orchestrator` fallback, a catalog member. -/
theorem route_task_slug_in_catalog_witness :
    rooModeSlugs.contains (RoutingDecision.mk "orchestrator" "Gemini").mode_slug = true ∧
    rooModeSlugs.contains "orchestrator" = true ∧
    (oracleSelectsValidSlug (RouteOracle.returns (some (JValue.jStr "garbage"))) = false →
      (RoutingDecision.mk "orchestrator" "Gemini").mode_slug = "orchestrator") :=
  route_task_slug_in_catalog [] (RouteOracle.returns (some (JValue.jStr "garbage")))
    (RoutingDecision.mk "orchestrator" "Gemini") rfl

/-- C10: a task dictionary with no `task_type` key at all does not make
`route_task` fail on the missing field: line 84 substitutes the string
`default`, which is itself a key of the preference table, so the returned
decision recommends the table entry for `default`, namely `Gemini`. -/
theorem route_task_missing_task_type_defaults
    (task : PyDict) (oracle : RouteOracle)
    (h : dictGet task "task_type" = none) :
    ∃ d : RoutingDecision,
      route_task task oracle = Except.ok d ∧
      d.recommended_llm = "Gemini" ∧
      List.lookup "default" RECOMMENDED_LLMS_BY_TASK_TYPE = some "Gemini" := by
  obtain ⟨d, hd, hllm⟩ :=
    route_task_ok_of_string task oracle "default" (by unfold taskTypeOf; rw [h]; rfl)
  exact ⟨d, hd, by rw [hllm]; rfl, rfl⟩

/-- C10 witness: the empty task dict, with a raising oracle. -/
theorem route_task_missing_task_type_defaults_witness :
    ∃ d : RoutingDecision,
      route_task [] RouteOracle.raises = Except.ok d ∧
      d.recommended_llm = "Gemini" ∧
      List.lookup "default" RECOMMENDED_LLMS_BY_TASK_TYPE = some "Gemini" :=
  route_task_missing_task_type_defaults [] RouteOracle.raises rfl

/-- C6 counterexample: the claim states that whenever the oracle reply is not
parseable as the expected structure (a list of tasks), `decompose_request`
returns exactly the single-element synthetic error task list.  The code
violates it: the reply string `"{}"` parses as JSON (to the empty object), so
`json.loads` does not raise, and line 55 returns that object as-is — a value
that is neither the expected task-list structure nor the single-element error
list (nor a list at all). -/
theorem decompose_request_nonlist_reply_counterexample :
    decompose_request (DecompOutcome.parsed (JValue.jObj [])) = JValue.jObj [] ∧
    isTaskList (JValue.jObj []) = false ∧
    isSingletonErrorTask (JValue.jObj []) = false :=
  ⟨rfl, rfl, rfl⟩

/-- C6 (amended): when the oracle reply is not parseable as JSON at all
(`json.loads` raises `JSONDecodeError`), or the oracle call raises,
`decompose_request` returns exactly a single-element list containing one
synthetic error task `{task_type: "error", params: {message: <diagnostic>}}`
and raises nothing to its caller; a reply that parses as JSON, however, is
returned as-is even when it is not a task list. -/
theorem decompose_request_failure_singleton_error_task
    (o : DecompOutcome) (h : decompFailed o = true) :
    isSingletonErrorTask (decompose_request o) = true ∧
    isTaskList (decompose_request o) = true := by
  cases o with
  | parsed v => exact Bool.noConfusion h
  | jsonDecodeError => exact ⟨rfl, rfl⟩
  | otherExn msg => exact ⟨rfl, rfl⟩

/-- C6 witness: the `JSONDecodeError` path. -/
theorem decompose_request_failure_singleton_error_task_witness :
    isSingletonErrorTask (decompose_request DecompOutcome.jsonDecodeError) = true ∧
    isTaskList (decompose_request DecompOutcome.jsonDecodeError) = true :=
  decompose_request_failure_singleton_error_task DecompOutcome.jsonDecodeError rfl

/-- C7: the claim states the value returned by `decompose_request` is
validated to be a (non-empty) list of tasks each minimally containing a
`task_type` field.  The code performs no such validation: line 55 returns
`json.loads(response)` unchecked, so a reply `"42"` makes it return the
integer 42 (not a list at all), and a reply `"[]"` makes it return the empty
list (an empty plan, which the spec says can never be returned). -/
theorem decompose_request_no_validation_bug :
    decompose_request (DecompOutcome.parsed (JValue.jNum 42)) = JValue.jNum 42 ∧
    isTaskList (JValue.jNum 42) = false ∧
    decompose_request (DecompOutcome.parsed (JValue.jArr [])) = JValue.jArr [] ∧
    isTaskList (JValue.jArr []) = true ∧
    (JValue.jArr [] : JValue) ≠ errorTaskList "Failed to decompose request: Invalid JSON from LLM" := by
  refine ⟨rfl, rfl, rfl, rfl, ?_⟩
  intro hcontra
  rw [errorTaskList] at hcontra
  injection hcontra with h2
  exact List.noConfusion h2

lemma execLoop_results_length (d : Delegation) :
    ∀ (ts : List PyDict) (acc : PlanResult),
      ((execLoop d ts acc).1.results).length
        = acc.results.length + ((execLoop d ts acc).2).length := by
  intro ts
  induction ts with
  | nil => intro acc; simp [execLoop]
  | cons t rest ih =>
    intro acc
    cases hdt : d t with
    | ok out =>
      simp only [execLoop, hdt]
      rw [ih]
      simp
      omega
    | error e =>
      simp [execLoop, hdt]

lemma execLoop_delegated_le (d : Delegation) :
    ∀ (ts : List PyDict) (acc : PlanResult),
      ((execLoop d ts acc).2).length ≤ ts.length := by
  intro ts
  induction ts with
  | nil => intro acc; simp [execLoop]
  | cons t rest ih =>
    intro acc
    cases hdt : d t with
    | ok out =>
      simp only [execLoop, hdt]
      simpa using Nat.succ_le_succ (ih _)
    | error e =>
      simp [execLoop, hdt]

lemma execLoop_status_sticky (d : Delegation) :
    ∀ (ts : List PyDict) (acc : PlanResult),
      acc.status = "partial_success_with_errors" →
      ((execLoop d ts acc).1).status = "partial_success_with_errors" := by
  intro ts
  induction ts with
  | nil => intro acc h; exact h
  | cons t rest ih =>
    intro acc h
    cases hdt : d t with
    | ok out =>
      simp only [execLoop, hdt]
      exact ih _ h
    | error e =>
      simp [execLoop, hdt]

lemma execLoop_status_append (d : Delegation) :
    ∀ (ts₁ ts₂ : List PyDict) (acc : PlanResult),
      ((execLoop d ts₁ acc).1).status = "partial_success_with_errors" →
      ((execLoop d (ts₁ ++ ts₂) acc).1).status = "partial_success_with_errors" := by
  intro ts₁
  induction ts₁ with
  | nil => intro ts₂ acc h; exact execLoop_status_sticky d ts₂ acc h
  | cons t rest ih =>
    intro ts₂ acc h
    cases hdt : d t with
    | ok out =>
      simp only [execLoop, hdt] at h ⊢
      exact ih _ _ h
    | error e =>
      simp only [List.cons_append, execLoop, hdt]

lemma execLoop_results_mem (d : Delegation) :
    ∀ (ts : List PyDict) (acc : PlanResult) (r : TaskResult),
      r ∈ (execLoop d ts acc).1.results →
      r ∈ acc.results ∨
      (∃ out, d r.task = Except.ok out ∧ r.status = "completed" ∧
        r.output = some (out.getD "No specific output from simulated mode.") ∧
        r.error = none) ∨
      (∃ msg, d r.task = Except.error msg ∧ r.status = "failed" ∧
        r.output = none ∧ r.error = some msg) := by
  intro ts
  induction ts with
  | nil => intro acc r hr; exact Or.inl hr
  | cons t rest ih =>
    intro acc r hr
    cases hdt : d t with
    | ok out =>
      simp only [execLoop, hdt] at hr
      rcases ih _ r hr with hmem | hP | hP
      · rcases List.mem_append.mp hmem with h1 | h1
        · exact Or.inl h1
        · have h2 := List.mem_singleton.mp h1
          subst h2
          exact Or.inr (Or.inl ⟨out, hdt, rfl, rfl, rfl⟩)
      · exact Or.inr (Or.inl hP)
      · exact Or.inr (Or.inr hP)
    | error e =>
      simp only [execLoop, hdt] at hr
      rcases List.mem_append.mp hr with h1 | h1
      · exact Or.inl h1
      · have h2 := List.mem_singleton.mp h1
        subst h2
        exact Or.inr (Or.inr ⟨e, hdt, rfl, rfl, rfl⟩)

/-- C2: `execute_plan` always returns a `PlanResult` (the embedding is a total
function: every exception the delegation boundary raises is caught by the
handler at lines 134-144), and every delegation failure is captured inside
that result: each recorded `TaskResult` is either a completed one carrying
the boundary reply for its task, or a failed one carrying the diagnostic of
the error the boundary raised for its task — never a thrown error. -/
theorem execute_plan_captures_delegation_failures
    (d : Delegation) (tasks : List PyDict) (r : TaskResult)
    (hr : r ∈ (execute_plan d tasks).results) :
    (∃ out, d r.task = Except.ok out ∧ r.status = "completed" ∧
      r.output = some (out.getD "No specific output from simulated mode.") ∧
      r.error = none) ∨
    (∃ msg, d r.task = Except.error msg ∧ r.status = "failed" ∧
      r.output = none ∧ r.error = some msg) := by
  rcases execLoop_results_mem d tasks { status := "success", results := [] } r hr with
    hmem | h | h
  · exact absurd hmem (List.not_mem_nil r)
  · exact Or.inl h
  · exact Or.inr h

def wTaskA : PyDict := [("task_type", JValue.jStr "a")]

def wTaskB : PyDict := [("task_type", JValue.jStr "b")]

def wTaskC : PyDict := [("task_type", JValue.jStr "c")]

/-- A concrete delegation boundary: raises exactly on tasks whose
`task_type` is the string `b`. -/
def wDelegFail : Delegation := fun t =>
  match dictGet t "task_type" with
  | some (JValue.jStr "b") => Except.error "boom"
  | _ => Except.ok (some "done")

def wFailedResult : TaskResult :=
  { task := wTaskB, status := "failed", output := none, error := some "boom" }

/-- C2 witness: a one-task plan whose delegation raises; the failure is
captured as the failed `TaskResult` recorded in the returned plan. -/
theorem execute_plan_captures_delegation_failures_witness :
    (∃ out, wDelegFail wFailedResult.task = Except.ok out ∧
      wFailedResult.status = "completed" ∧
      wFailedResult.output = some (out.getD "No specific output from simulated mode.") ∧
      wFailedResult.error = none) ∨
    (∃ msg, wDelegFail wFailedResult.task = Except.error msg ∧
      wFailedResult.status = "failed" ∧
      wFailedResult.output = none ∧ wFailedResult.error = some msg) :=
  execute_plan_captures_delegation_failures wDelegFail [wTaskB] wFailedResult
    (List.Mem.head _)

/-- C3: on a three-task plan where the boundary succeeds on the first task,
fails on the second and would succeed on the third, `execute_plan` returns
exactly two results in input order — the first completed, the second failed —
with overall status `partial_success_with_errors`, and the third task is
never delegated (the boundary is invoked exactly for the first two tasks; in
the source, routing happens inside that delegation boundary, so the third
task is not routed either). -/
theorem execute_plan_fail_fast_three_tasks
    (d : Delegation) (t1 t2 t3 : PyDict)
    (o1 : Option String) (e : String) (o3 : Option String)
    (h1 : d t1 = Except.ok o1) (h2 : d t2 = Except.error e)
    (_h3 : d t3 = Except.ok o3) :
    execute_plan d [t1, t2, t3] =
      { status := "partial_success_with_errors",
        results := [ { task := t1, status := "completed",
                       output := some (o1.getD "No specific output from simulated mode."),
                       error := none },
                     { task := t2, status := "failed",
                       output := none, error := some e } ] } ∧
    delegatedTasks d [t1, t2, t3] = [t1, t2] := by
  constructor
  · unfold execute_plan
    simp only [execLoop, h1, h2]
    rfl
  · unfold delegatedTasks
    simp only [execLoop, h1, h2]

/-- C3 witness: concrete tasks `a`, `b`, `c` under the boundary that raises
exactly on `b`. -/
theorem execute_plan_fail_fast_three_tasks_witness :
    execute_plan wDelegFail [wTaskA, wTaskB, wTaskC] =
      { status := "partial_success_with_errors",
        results := [ { task := wTaskA, status := "completed",
                       output := some ((some "done").getD "No specific output from simulated mode."),
                       error := none },
                     { task := wTaskB, status := "failed",
                       output := none, error := some "boom" } ] } ∧
    delegatedTasks wDelegFail [wTaskA, wTaskB, wTaskC] = [wTaskA, wTaskB] :=
  execute_plan_fail_fast_three_tasks wDelegFail wTaskA wTaskB wTaskC
    (some "done") "boom" (some "done") rfl rfl rfl

/-- C8: executing the empty task list returns
`{status: success, results: []}` and invokes the delegation boundary (and
hence routing, which lives inside it) for no task at all — for every
behaviour of the boundary. -/
theorem execute_plan_empty_success (d : Delegation) :
    execute_plan d [] = { status := "success", results := [] } ∧
    delegatedTasks d [] = [] :=
  ⟨rfl, rfl⟩

/-- C9: for every task list and boundary behaviour, the returned plan records
at most one result per input task; when execution halted before attempting
every task, strictly fewer results than tasks are recorded; and once the
status has become `partial_success_with_errors` after some prefix of the
plan, the status of the full run is still `partial_success_with_errors`
(it never reverts to `success`). -/
theorem execute_plan_results_bounds_and_status
    (d : Delegation) (tasks : List PyDict) :
    (execute_plan d tasks).results.length ≤ tasks.length ∧
    ((delegatedTasks d tasks).length < tasks.length →
      (execute_plan d tasks).results.length < tasks.length) ∧
    (∀ n : Nat,
      (execute_plan d (tasks.take n)).status = "partial_success_with_errors" →
      (execute_plan d tasks).status = "partial_success_with_errors") := by
  have hlen := execLoop_results_length d tasks { status := "success", results := [] }
  have hle := execLoop_delegated_le d tasks { status := "success", results := [] }
  have heq : (execute_plan d tasks).results.length = (delegatedTasks d tasks).length := by
    unfold execute_plan delegatedTasks
    rw [hlen]
    simp
  refine ⟨?_, ?_, ?_⟩
  · rw [heq]
    exact hle
  · intro hlt
    rw [heq]
    exact hlt
  · intro n h
    have hsplit : tasks = tasks.take n ++ tasks.drop n := (List.take_append_drop n tasks).symm
    rw [hsplit]
    exact execLoop_status_append d (tasks.take n) (tasks.drop n)
      { status := "success", results := [] } h

/-- C9 witness: a three-task plan failing on its first task: one result is
recorded (strictly fewer than three), and the `partial_success_with_errors`
status reached after the one-task prefix persists for the full run. -/
theorem execute_plan_results_bounds_and_status_witness :
    (execute_plan wDelegFail [wTaskB, wTaskA, wTaskC]).results.length ≤ 3 ∧
    (execute_plan wDelegFail [wTaskB, wTaskA, wTaskC]).results.length < 3 ∧
    (execute_plan wDelegFail [wTaskB, wTaskA, wTaskC]).status
      = "partial_success_with_errors" :=
  have h := execute_plan_results_bounds_and_status wDelegFail [wTaskB, wTaskA, wTaskC]
  ⟨h.1, h.2.1 (by decide), h.2.2 1 rfl⟩
